import Mathlib

/-!
Verification of the DHT11 single-wire sensor reader from
`src/DHT11.c` (functions `dht11_read_once`, `dht11_read`,
`dht11_get_temperature`, `dht11_get_humidity` and
`dht11_celsius_to_fahrenheit`).

The C code is shallowly embedded:
* the GPIO line is a function `Nat → Bool` giving the level (true = HIGH)
  at each microsecond tick;
* every polling loop is modelled as polling once per microsecond, so the
  loop counter doubles as the elapsed time in microseconds;
* the busy-wait loops are written with an explicit fuel argument
  (102 suffices, proved below) so that every definition is total and
  executable;
* C `int` fields of the handle become `Int`; the frame bytes, which are
  always in `[0, 255]`, are `Nat`;
* `esp_err_t` return codes become the inductive `EspErr`;
* the C `float` arithmetic of the Fahrenheit conversion is modelled as
  IEEE-754 binary32 round-to-nearest-even over exact dyadic/rational
  arithmetic (normal range; the conversion never leaves it).
-/

set_option maxRecDepth 100000
set_option maxHeartbeats 1600000

/-- The `esp_err_t` values that appear in `DHT11.c`: `ESP_OK`,
`ESP_ERR_TIMEOUT`, `ESP_ERR_INVALID_CRC` and `ESP_FAIL` (the initial
value of `result` in `dht11_read`). -/
inductive EspErr where
  | ok
  | errTimeout
  | errInvalidCrc
  | fail
deriving DecidableEq, Repr

/-- The `dht11_t` handle from `DHT11.h`: GPIO number plus the cached
last temperature (°C) and humidity (%RH), all C `int`. -/
structure Dht11 where
  gpio_num : Int
  temperature : Int
  humidity : Int
deriving DecidableEq, Repr

/-- Bit decoding rule of `dht11_read_once` (line 134 of `DHT11.c`):
a measured HIGH pulse width strictly greater than 40 µs decodes to 1,
otherwise to 0. -/
def bitVal (pulse_width : Nat) : Nat :=
  if 40 < pulse_width then 1 else 0

/-- The in-loop parsing state of `dht11_read_once`: the counters
`bit_idx`, `byte_idx` and the 5-entry array `data`. -/
structure BitState where
  bit_idx : Nat
  byte_idx : Nat
  data : List Nat
deriving DecidableEq, Repr

/-- `int data[5] = {0}` with `bit_idx = byte_idx = 0`. -/
def initBitState : BitState :=
  ⟨0, 0, [0, 0, 0, 0, 0]⟩

/-- One iteration of the 40-bit loop body of `dht11_read_once`
(lines 133–146), applied to an already-measured pulse width:
`data[byte_idx] <<= 1; if (pulse_width > 40) data[byte_idx] |= 1;`
then advance `bit_idx`, rolling over into `byte_idx` every 8 bits.
On a value that was shifted left, `|= 1` is addition of the new
low bit. -/
def bitStep (st : BitState) (pulse_width : Nat) : BitState :=
  let d := st.data.set st.byte_idx (2 * st.data.getD st.byte_idx 0 + bitVal pulse_width)
  if st.bit_idx + 1 = 8 then
    ⟨0, st.byte_idx + 1, d⟩
  else
    ⟨st.bit_idx + 1, st.byte_idx, d⟩

/-- The frame decoder: the contents of `data[0..4]` after running the
bit loop of `dht11_read_once` over a sequence of measured pulse
widths. -/
def decodeFrame (widths : List Nat) : List Nat :=
  (widths.foldl bitStep initBitState).data

/-- Checksum validation and storing of a completed frame
(lines 149–161 of `dht11_read_once`): `uint8_t checksum = data[0] +
data[1] + data[2] + data[3]` (the cast truncates mod 256) is compared
with `data[4]`; on mismatch the attempt fails with
`ESP_ERR_INVALID_CRC` and the handle is untouched, otherwise
`sensor->humidity = data[0]`, `sensor->temperature = data[2]`. -/
def validateAndStore (s : Dht11) (data : List Nat) : EspErr × Dht11 :=
  let checksum := (data.getD 0 0 + data.getD 1 0 + data.getD 2 0 + data.getD 3 0) % 256
  if data.getD 4 0 ≠ checksum then
    (.errInvalidCrc, s)
  else
    (.ok, { s with humidity := (data.getD 0 0 : Int), temperature := (data.getD 2 0 : Int) })

/-- Result of one polling loop of `dht11_read_once`: the level was
observed after `elapsed` microseconds, or the loop gave up after
`elapsed` microseconds (`esp_timer_get_time() - timeout > 100`), or the
modelling fuel ran out (proved unreachable below). -/
inductive WaitRes where
  | observed (elapsed : Nat)
  | timedOut (elapsed : Nat)
  | exhausted
deriving DecidableEq, Repr

/-- One `while (gpio_get_level(...) == ...)` polling loop with the
100 µs timeout check inside the body, e.g. lines 77–85 of `DHT11.c`.
The line is polled once per microsecond starting at time `t0`; `i` is
both the poll index and the elapsed time.  The loop condition is
checked first (reaching the target level exits successfully even after
the deadline), then the timeout test `elapsed > 100`. -/
def waitAux (level : Nat → Bool) (target : Bool) (t0 : Nat) : Nat → Nat → WaitRes
  | _, 0 => .exhausted
  | i, fuel + 1 =>
    if level (t0 + i) = target then .observed i
    else if 100 < i then .timedOut i
    else waitAux level target t0 (i + 1) fuel

/-- `wait_for_level`: the polling loop started at time `t0` with fuel
102, which is enough for every possible line behaviour (see the
bounded-wait theorem below). -/
def waitForLevel (level : Nat → Bool) (target : Bool) (t0 : Nat) : WaitRes :=
  waitAux level target t0 0 102

/-- The HIGH-pulse measurement loop of `dht11_read_once`
(lines 124–130): `while (gpio_get_level(...) == 1) { if (elapsed > 100)
break; }` followed by `pulse_width = now - start`.  Returns the pulse
width in microseconds; the loop breaks (width capped) at 101 µs if the
line sticks HIGH. -/
def measAux (level : Nat → Bool) (t0 : Nat) : Nat → Nat → Nat
  | i, 0 => i
  | i, fuel + 1 =>
    if level (t0 + i) = true then
      if 100 < i then i else measAux level t0 (i + 1) fuel
    else i

/-- Measure how long the line stays HIGH from time `t0`, with the
run-out-of-fuel case unreachable at fuel 102. -/
def measureHigh (level : Nat → Bool) (t0 : Nat) : Nat :=
  measAux level t0 0 102

/-- Which timing window a read attempt was in when it returned.  The
first three are the handshake waits of `dht11_read_once` (lines 77–107,
one per `ESP_LOGI` branch); `bit i` is the wait for bit `i`'s HIGH
pulse (lines 113–121); `done` means all 40 bits were read.  This is
bookkeeping added by the embedding: the C return value itself does not
record the phase. -/
inductive Phase where
  | ackLow
  | ackHigh
  | ackLow2
  | bit (i : Nat)
  | done
deriving DecidableEq, Repr

/-- Everything observable about one `dht11_read_once` call: the
returned `esp_err_t`, the handle contents after the call, the time at
which the call returned (for sequencing retries) and the phase in
which it returned. -/
structure ReadRes where
  err : EspErr
  state : Dht11
  endTime : Nat
  phase : Phase
deriving DecidableEq, Repr

/-- The 40-iteration bit loop of `dht11_read_once` (lines 110–147):
for each bit, wait (100 µs timeout) for the line to go HIGH, measure
the HIGH pulse width, and fold it into the parsing state with
`bitStep`.  `k` is the number of bits still to read and `i` the index
of the next bit; a timeout aborts the whole read, reporting `i`. -/
def readBitsAux (level : Nat → Bool) :
    Nat → Nat → Nat → BitState → (Nat × Nat) ⊕ (BitState × Nat)
  | 0, _, t, st => .inr (st, t)
  | k + 1, i, t, st =>
    match waitForLevel level true t with
    | .observed e =>
      let tH := t + e
      let w := measureHigh level tH
      readBitsAux level k (i + 1) (tH + w) (bitStep st w)
    | .timedOut e => .inl (i, t + e)
    | .exhausted => .inl (i, t)

/-- `dht11_read_once` over a line trace, starting at time `t0` with
handle `s`.  Start signal: drive LOW for 20 ms (`vTaskDelay`), release,
wait 30 µs (`esp_rom_delay_us`), switch to input; then the three
handshake waits (LOW, HIGH, LOW), the 40-bit loop, and checksum
validation/store.  Any timeout returns `ESP_ERR_TIMEOUT` with the
handle untouched. -/
def readOnceP (level : Nat → Bool) (t0 : Nat) (s : Dht11) : ReadRes :=
  let t1 := t0 + 20000 + 30
  match waitForLevel level false t1 with
  | .timedOut e => ⟨.errTimeout, s, t1 + e, .ackLow⟩
  | .exhausted => ⟨.errTimeout, s, t1, .ackLow⟩
  | .observed e1 =>
    let t2 := t1 + e1
    match waitForLevel level true t2 with
    | .timedOut e => ⟨.errTimeout, s, t2 + e, .ackHigh⟩
    | .exhausted => ⟨.errTimeout, s, t2, .ackHigh⟩
    | .observed e2 =>
      let t3 := t2 + e2
      match waitForLevel level false t3 with
      | .timedOut e => ⟨.errTimeout, s, t3 + e, .ackLow2⟩
      | .exhausted => ⟨.errTimeout, s, t3, .ackLow2⟩
      | .observed e3 =>
        let t4 := t3 + e3
        match readBitsAux level 40 0 t4 initBitState with
        | .inl (i, tE) => ⟨.errTimeout, s, tE, .bit i⟩
        | .inr (st, tE) =>
          let (err, s') := validateAndStore s st.data
          ⟨err, s', tE, .done⟩

/-- The `esp_err_t` and handle produced by one `dht11_read_once` call
(the projection of `readOnceP` onto what the C function returns and
mutates). -/
def dht11_read_once (level : Nat → Bool) (t0 : Nat) (s : Dht11) : EspErr × Dht11 :=
  ((readOnceP level t0 s).err, (readOnceP level t0 s).state)

/-- The retry loop of `dht11_read` (lines 164–184): up to
`DHT_READ_RETRIES = 3` calls of `dht11_read_once`; the first `ESP_OK`
returns immediately, otherwise `vTaskDelay(pdMS_TO_TICKS(100))`
(100 000 µs) and retry; when all attempts fail, the `result` of the
last attempt is returned (its initial value is `ESP_FAIL`).  Also
returns the number of `dht11_read_once` calls performed — bookkeeping
added by the embedding to state the retry-count properties. -/
def dht11_readAux (level : Nat → Bool) : Nat → Nat → Dht11 → EspErr → EspErr × Dht11 × Nat
  | 0, _, s, last => (last, s, 0)
  | n + 1, t, s, _ =>
    let r := readOnceP level t s
    if r.err = .ok then (.ok, r.state, 1)
    else
      let (res, s', cnt) := dht11_readAux level n (r.endTime + 100000) r.state r.err
      (res, s', cnt + 1)

/-- `dht11_read` over a line trace: the retry loop with
`DHT_READ_RETRIES = 3` attempts, starting with `result = ESP_FAIL`. -/
def dht11_read (level : Nat → Bool) (t0 : Nat) (s : Dht11) : EspErr × Dht11 × Nat :=
  dht11_readAux level 3 t0 s .fail

/-- Start time and handle contents seen by the `n`-th (0-based)
`dht11_read_once` call of `dht11_read`, assuming every earlier attempt
returned (attempt `n` starts 100 ms after attempt `n-1` ended). -/
def attemptCtx (level : Nat → Bool) (t0 : Nat) (s0 : Dht11) : Nat → Nat × Dht11
  | 0 => (t0, s0)
  | n + 1 =>
    let (t, s) := attemptCtx level t0 s0 n
    let r := readOnceP level t s
    (r.endTime + 100000, r.state)

/-- A piecewise-constant line trace: `(d, l) :: rest` holds level `l`
for `d` microseconds, then continues with `rest`; after the last
segment the line stays at `dflt`. -/
def traceOf (segs : List (Nat × Bool)) (dflt : Bool) (t : Nat) : Bool :=
  match segs with
  | [] => dflt
  | (d, l) :: rest => if t < d then l else traceOf rest dflt (t - d)

/-- A line behaviour realising a complete successful read of the
all-zero frame (handshake LOW/HIGH/LOW, then forty 1 µs HIGH pulses,
each decoding to bit 0; checksum 0 = 0+0+0+0 passes). -/
def goodSegs : List (Nat × Bool) :=
  (20030, true) :: (1, false) :: (1, true) :: (1, false) ::
    (List.replicate 40 [(1, true), (1, false)]).flatten

/-- Line trace of a fully successful attempt. -/
def lineGood : Nat → Bool := traceOf goodSegs false

/-- A line that is stuck HIGH: the first handshake wait (for LOW)
times out on every attempt. -/
def lineHigh : Nat → Bool := fun _ => true

/-- A line that goes LOW when the start signal ends and never rises:
the ack-low wait succeeds, the ack-high wait times out. -/
def lineAck2 : Nat → Bool := traceOf [(20030, true)] false

/-- A line that completes the three handshake waits and then stays
LOW: the wait for bit 0's HIGH pulse times out. -/
def lineBit0 : Nat → Bool := traceOf [(20030, true), (1, false), (1, true)] false

/-- Number of binary digits of `n` (0 for 0), written with structural
fuel so the kernel can evaluate it. -/
def bitsAux : Nat → Nat → Nat
  | 0, _ => 0
  | fuel + 1, n => if n = 0 then 0 else bitsAux fuel (n / 2) + 1

/-- `bits n = ⌊log₂ n⌋ + 1` for `n > 0`. -/
def bits (n : Nat) : Nat := bitsAux n n

/-- Round the nonnegative rational `num / den` to the nearest integer,
ties to even. -/
def rneNat (num den : Nat) : Nat :=
  let q := num / den
  let r := num % den
  if 2 * r < den then q
  else if den < 2 * r then q + 1
  else if q % 2 = 0 then q else q + 1

/-- An IEEE-754 binary32 value in the embedding: the dyadic number
`m * 2 ^ e` with `|m| ≤ 2^24`.  Only the value matters; the
representation produced by `roundF32` has `2^23 ≤ |m| ≤ 2^24` for
nonzero results. -/
structure F32 where
  m : Int
  e : Int
deriving DecidableEq, Repr

/-- Decide `2 ^ E ≤ A / b` using only natural-number arithmetic. -/
def pow2le (b A : Nat) (E : Int) : Bool :=
  if 0 ≤ E then decide (b * 2 ^ E.toNat ≤ A) else decide (b ≤ A * 2 ^ (-E).toNat)

/-- IEEE-754 binary32 round-to-nearest-even of the exact rational
`a / b` (`b > 0`), for the normal range: no overflow, subnormal or
NaN handling (the Fahrenheit conversion under verification stays far
inside the normal range).  The binade exponent `e` is located via
`bits` and one comparison; the 24-bit significand is the
round-to-nearest-even of `(a / b) / 2 ^ (e - 23)`. -/
def roundF32 (a : Int) (b : Nat) : F32 :=
  let A := a.natAbs
  if A = 0 ∨ b = 0 then ⟨0, 0⟩ else
  let e0 : Int := (bits A : Int) - (bits b : Int)
  let e : Int := if pow2le b A e0 then e0 else e0 - 1
  let m :=
    if e ≤ 23 then rneNat (A * 2 ^ (23 - e).toNat) b
    else rneNat A (b * 2 ^ (e - 23).toNat)
  ⟨if a < 0 then -(m : Int) else (m : Int), e - 23⟩

/-- Round the dyadic number `m * 2 ^ e` to binary32. -/
def roundDy (m : Int) (e : Int) : F32 :=
  if 0 ≤ e then roundF32 (m * 2 ^ e.toNat) 1 else roundF32 m (2 ^ (-e).toNat)

/-- binary32 multiplication: the exact product, correctly rounded. -/
def F32.mul (x y : F32) : F32 := roundDy (x.m * y.m) (x.e + y.e)

/-- binary32 addition: the exact sum, correctly rounded. -/
def F32.add (x y : F32) : F32 :=
  let e := min x.e y.e
  roundDy (x.m * 2 ^ (x.e - e).toNat + y.m * 2 ^ (y.e - e).toNat) e

/-- binary32 division: the exact quotient, correctly rounded. -/
def F32.div (x y : F32) : F32 :=
  let d := x.e - y.e
  let a : Int := if y.m < 0 then -x.m else x.m
  if 0 ≤ d then roundF32 (a * 2 ^ d.toNat) y.m.natAbs
  else roundF32 a (y.m.natAbs * 2 ^ (-d).toNat)

/-- The C `int` → `float` conversion (exact for every `int` the driver
stores, and rounded like every other operation in general). -/
def F32.ofInt (c : Int) : F32 := roundF32 c 1

/-- The exact rational value of a binary32 number. -/
def F32.toRat (x : F32) : ℚ :=
  if 0 ≤ x.e then (x.m : ℚ) * 2 ^ x.e.toNat else (x.m : ℚ) / 2 ^ (-x.e).toNat

/-- The C `float` → `int` conversion: truncation toward zero. -/
def F32.toCInt (x : F32) : Int :=
  if 0 ≤ x.e then x.m * 2 ^ x.e.toNat
  else if x.m < 0 then -((x.m.natAbs / 2 ^ (-x.e).toNat : Nat) : Int)
  else ((x.m.natAbs / 2 ^ (-x.e).toNat : Nat) : Int)

/-- `dht11_celsius_to_fahrenheit` (lines 200–204 of `DHT11.c`):
`return (celsius * 9.0f / 5.0f) + 32.0f;` — the `int` argument is
widened to `float`, multiplied by `9.0f`, divided by `5.0f` and
increased by `32.0f`, each step in binary32. -/
def dht11_celsius_to_fahrenheit (celsius : Int) : F32 :=
  (((F32.ofInt celsius).mul ⟨9, 0⟩).div ⟨5, 0⟩).add ⟨32, 0⟩

/-- `dht11_get_temperature` (lines 186–192): the cached Celsius value,
or, when `fahrenheit` is set, `dht11_celsius_to_fahrenheit` of it cast
back to C `int` (the function's return type) by truncation. -/
def dht11_get_temperature (s : Dht11) (fahrenheit : Bool) : Int :=
  if fahrenheit then (dht11_celsius_to_fahrenheit s.temperature).toCInt
  else s.temperature

/-- `dht11_get_humidity` (lines 194–198): the cached humidity. -/
def dht11_get_humidity (s : Dht11) : Int := s.humidity

/-! ### The bit loop, one byte slot at a time -/

/-- Eight iterations of the bit loop starting at `bit_idx = 0`,
`byte_idx = 0` shift the eight decoded bits MSB-first into slot 0 and
advance to slot 1. -/
lemma foldl_bitStep_byte0 (x0 x1 x2 x3 x4 w0 w1 w2 w3 w4 w5 w6 w7 : Nat) :
    List.foldl bitStep ⟨0, 0, [x0, x1, x2, x3, x4]⟩ [w0, w1, w2, w3, w4, w5, w6, w7] =
      ⟨0, 1, [256 * x0 + 128 * bitVal w0 + 64 * bitVal w1 + 32 * bitVal w2 + 16 * bitVal w3 +
        8 * bitVal w4 + 4 * bitVal w5 + 2 * bitVal w6 + bitVal w7, x1, x2, x3, x4]⟩ := by
  simp only [List.foldl, bitStep, List.set, List.getD, List.get?, Option.getD]
  norm_num
  ring

/-- Eight iterations of the bit loop filling byte slot 1. -/
lemma foldl_bitStep_byte1 (x0 x1 x2 x3 x4 w0 w1 w2 w3 w4 w5 w6 w7 : Nat) :
    List.foldl bitStep ⟨0, 1, [x0, x1, x2, x3, x4]⟩ [w0, w1, w2, w3, w4, w5, w6, w7] =
      ⟨0, 2, [x0, 256 * x1 + 128 * bitVal w0 + 64 * bitVal w1 + 32 * bitVal w2 + 16 * bitVal w3 +
        8 * bitVal w4 + 4 * bitVal w5 + 2 * bitVal w6 + bitVal w7, x2, x3, x4]⟩ := by
  simp only [List.foldl, bitStep, List.set, List.getD, List.get?, Option.getD]
  norm_num
  ring

/-- Eight iterations of the bit loop filling byte slot 2. -/
lemma foldl_bitStep_byte2 (x0 x1 x2 x3 x4 w0 w1 w2 w3 w4 w5 w6 w7 : Nat) :
    List.foldl bitStep ⟨0, 2, [x0, x1, x2, x3, x4]⟩ [w0, w1, w2, w3, w4, w5, w6, w7] =
      ⟨0, 3, [x0, x1, 256 * x2 + 128 * bitVal w0 + 64 * bitVal w1 + 32 * bitVal w2 + 16 * bitVal w3 +
        8 * bitVal w4 + 4 * bitVal w5 + 2 * bitVal w6 + bitVal w7, x3, x4]⟩ := by
  simp only [List.foldl, bitStep, List.set, List.getD, List.get?, Option.getD]
  norm_num
  ring

/-- Eight iterations of the bit loop filling byte slot 3. -/
lemma foldl_bitStep_byte3 (x0 x1 x2 x3 x4 w0 w1 w2 w3 w4 w5 w6 w7 : Nat) :
    List.foldl bitStep ⟨0, 3, [x0, x1, x2, x3, x4]⟩ [w0, w1, w2, w3, w4, w5, w6, w7] =
      ⟨0, 4, [x0, x1, x2, 256 * x3 + 128 * bitVal w0 + 64 * bitVal w1 + 32 * bitVal w2 + 16 * bitVal w3 +
        8 * bitVal w4 + 4 * bitVal w5 + 2 * bitVal w6 + bitVal w7, x4]⟩ := by
  simp only [List.foldl, bitStep, List.set, List.getD, List.get?, Option.getD]
  norm_num
  ring

/-- Eight iterations of the bit loop filling byte slot 4. -/
lemma foldl_bitStep_byte4 (x0 x1 x2 x3 x4 w0 w1 w2 w3 w4 w5 w6 w7 : Nat) :
    List.foldl bitStep ⟨0, 4, [x0, x1, x2, x3, x4]⟩ [w0, w1, w2, w3, w4, w5, w6, w7] =
      ⟨0, 5, [x0, x1, x2, x3, 256 * x4 + 128 * bitVal w0 + 64 * bitVal w1 + 32 * bitVal w2 +
        16 * bitVal w3 + 8 * bitVal w4 + 4 * bitVal w5 + 2 * bitVal w6 + bitVal w7]⟩ := by
  simp only [List.foldl, bitStep, List.set, List.getD, List.get?, Option.getD]
  norm_num
  ring

/-- C1: for every sequence of 40 measured HIGH-pulse widths, the frame
decoder produces exactly 5 bytes; each bit decodes to 1 iff its pulse
width is strictly greater than 40 µs (40 ↦ 0, 41 ↦ 1), and bits are
packed most-significant-bit-first, 8 per byte, into the 5 successive
byte slots. -/
theorem frame_decoder_msb_first_threshold40 :
    (∀ p : Nat, (bitVal p = 1 ↔ 40 < p) ∧ (bitVal p = 0 ↔ p ≤ 40)) ∧
    ∀ w0 w1 w2 w3 w4 w5 w6 w7 w8 w9 w10 w11 w12 w13 w14 w15 w16 w17 w18 w19
      w20 w21 w22 w23 w24 w25 w26 w27 w28 w29 w30 w31 w32 w33 w34 w35 w36 w37 w38 w39 : Nat,
      decodeFrame [w0, w1, w2, w3, w4, w5, w6, w7, w8, w9, w10, w11, w12, w13, w14, w15,
          w16, w17, w18, w19, w20, w21, w22, w23, w24, w25, w26, w27, w28, w29, w30, w31,
          w32, w33, w34, w35, w36, w37, w38, w39] =
        [128 * bitVal w0 + 64 * bitVal w1 + 32 * bitVal w2 + 16 * bitVal w3 +
           8 * bitVal w4 + 4 * bitVal w5 + 2 * bitVal w6 + bitVal w7,
         128 * bitVal w8 + 64 * bitVal w9 + 32 * bitVal w10 + 16 * bitVal w11 +
           8 * bitVal w12 + 4 * bitVal w13 + 2 * bitVal w14 + bitVal w15,
         128 * bitVal w16 + 64 * bitVal w17 + 32 * bitVal w18 + 16 * bitVal w19 +
           8 * bitVal w20 + 4 * bitVal w21 + 2 * bitVal w22 + bitVal w23,
         128 * bitVal w24 + 64 * bitVal w25 + 32 * bitVal w26 + 16 * bitVal w27 +
           8 * bitVal w28 + 4 * bitVal w29 + 2 * bitVal w30 + bitVal w31,
         128 * bitVal w32 + 64 * bitVal w33 + 32 * bitVal w34 + 16 * bitVal w35 +
           8 * bitVal w36 + 4 * bitVal w37 + 2 * bitVal w38 + bitVal w39] := by
  constructor
  · intro p
    by_cases h : 40 < p <;> simp [bitVal, h]
    omega
  · intro w0 w1 w2 w3 w4 w5 w6 w7 w8 w9 w10 w11 w12 w13 w14 w15 w16 w17 w18 w19
      w20 w21 w22 w23 w24 w25 w26 w27 w28 w29 w30 w31 w32 w33 w34 w35 w36 w37 w38 w39
    have hsplit : [w0, w1, w2, w3, w4, w5, w6, w7, w8, w9, w10, w11, w12, w13, w14, w15,
        w16, w17, w18, w19, w20, w21, w22, w23, w24, w25, w26, w27, w28, w29, w30, w31,
        w32, w33, w34, w35, w36, w37, w38, w39] =
        [w0, w1, w2, w3, w4, w5, w6, w7] ++ ([w8, w9, w10, w11, w12, w13, w14, w15] ++
        ([w16, w17, w18, w19, w20, w21, w22, w23] ++ ([w24, w25, w26, w27, w28, w29, w30, w31] ++
        [w32, w33, w34, w35, w36, w37, w38, w39]))) := rfl
    rw [decodeFrame, hsplit, initBitState, List.foldl_append, List.foldl_append,
      List.foldl_append, List.foldl_append, foldl_bitStep_byte0, foldl_bitStep_byte1,
      foldl_bitStep_byte2, foldl_bitStep_byte3, foldl_bitStep_byte4]
    norm_num

/-- C1 witness: forty nominal long pulses (70 µs) decode to five bytes
of 255. -/
theorem frame_decoder_msb_first_threshold40_witness :
    decodeFrame [70, 70, 70, 70, 70, 70, 70, 70, 70, 70, 70, 70, 70, 70, 70, 70,
        70, 70, 70, 70, 70, 70, 70, 70, 70, 70, 70, 70, 70, 70, 70, 70,
        70, 70, 70, 70, 70, 70, 70, 70] = [255, 255, 255, 255, 255] := by
  have h := frame_decoder_msb_first_threshold40.2 70 70 70 70 70 70 70 70 70 70
    70 70 70 70 70 70 70 70 70 70 70 70 70 70 70 70 70 70 70 70 70 70 70 70 70 70 70 70 70 70
  norm_num [bitVal] at h
  exact h

/-- C2: the checksum validator accepts a completed 5-byte frame iff
`b4 = (b0 + b1 + b2 + b3) mod 256`; on any frame violating the
equation the attempt returns `ESP_ERR_INVALID_CRC`, never `ESP_OK`. -/
theorem checksum_accepts_iff_mod256 :
    ∀ (s : Dht11) (b0 b1 b2 b3 b4 : Nat),
      ((validateAndStore s [b0, b1, b2, b3, b4]).1 = .ok ↔ b4 = (b0 + b1 + b2 + b3) % 256) ∧
      (b4 ≠ (b0 + b1 + b2 + b3) % 256 →
        (validateAndStore s [b0, b1, b2, b3, b4]).1 = .errInvalidCrc ∧
        (validateAndStore s [b0, b1, b2, b3, b4]).1 ≠ .ok) := by
  intro s b0 b1 b2 b3 b4
  constructor
  · by_cases h : b4 = (b0 + b1 + b2 + b3) % 256 <;>
      simp [validateAndStore, List.getD, h]
  · intro h
    simp [validateAndStore, List.getD, h]

/-- C2 witness: the frame `{45, 0, 23, 0, 69}` (checksum byte off by
one from the correct 68) is rejected with `ESP_ERR_INVALID_CRC`. -/
theorem checksum_accepts_iff_mod256_witness :
    (validateAndStore ⟨4, 0, 0⟩ [45, 0, 23, 0, 69]).1 = .errInvalidCrc ∧
    (validateAndStore ⟨4, 0, 0⟩ [45, 0, 23, 0, 69]).1 ≠ .ok :=
  (checksum_accepts_iff_mod256 ⟨4, 0, 0⟩ 45 0 23 0 69).2 (by decide)

/-- C10: on a checksum-valid frame the handle's cached humidity is set
to frame byte 0 and its cached temperature to frame byte 2, exactly;
the fraction bytes (1 and 3) and the checksum byte are not stored, so
two accepted frames that agree on bytes 0 and 2 produce identical
handle states. -/
theorem accepted_frame_stores_bytes0_and_2 :
    ∀ (s : Dht11) (b0 b1 b2 b3 b4 : Nat),
      (b4 = (b0 + b1 + b2 + b3) % 256 →
        validateAndStore s [b0, b1, b2, b3, b4] =
          (.ok, { s with humidity := (b0 : Int), temperature := (b2 : Int) })) ∧
      ∀ (c1 c3 c4 : Nat),
        b4 = (b0 + b1 + b2 + b3) % 256 →
        c4 = (b0 + c1 + b2 + c3) % 256 →
        (validateAndStore s [b0, b1, b2, b3, b4]).2 =
          (validateAndStore s [b0, c1, b2, c3, c4]).2 := by
  intro s b0 b1 b2 b3 b4
  constructor
  · intro h
    simp [validateAndStore, List.getD, h]
  · intro c1 c3 c4 h h'
    simp [validateAndStore, List.getD, h, h']

/-- C10 witness: the accepted frame `{45, 0, 23, 0, 68}` stores
humidity 45 and temperature 23, and the accepted frame
`{45, 7, 23, 200, 19}` (different fraction bytes, matching checksum)
produces the identical handle state. -/
theorem accepted_frame_stores_bytes0_and_2_witness :
    validateAndStore ⟨4, 0, 0⟩ [45, 0, 23, 0, 68] = (.ok, ⟨4, 23, 45⟩) ∧
    (validateAndStore ⟨4, 0, 0⟩ [45, 0, 23, 0, 68]).2 =
      (validateAndStore ⟨4, 0, 0⟩ [45, 7, 23, 200, 19]).2 :=
  ⟨(accepted_frame_stores_bytes0_and_2 ⟨4, 0, 0⟩ 45 0 23 0 68).1 (by decide),
   (accepted_frame_stores_bytes0_and_2 ⟨4, 0, 0⟩ 45 0 23 0 68).2 7 200 19 (by decide) (by decide)⟩

/-! ### Boundedness of the polling loops -/

/-- Fuel 102 is enough for the polling loop: it always decides
(observes the level or times out) before running out. -/
lemma waitAux_ne_exhausted (level : Nat → Bool) (target : Bool) (t0 : Nat) :
    ∀ fuel i, i ≤ 101 → 102 ≤ fuel + i → waitAux level target t0 i fuel ≠ .exhausted := by
  intro fuel
  induction fuel with
  | zero => intro i h1 h2; omega
  | succ n ih =>
    intro i h1 _
    rw [waitAux]
    by_cases hl : level (t0 + i) = target
    · simp [hl]
    · by_cases ht : 100 < i
      · simp [hl, ht]
      · simpa [hl, ht] using ih (i + 1) (by omega) (by omega)

/-- If the polling loop observes the level, it does so within 101 µs
of entry. -/
lemma waitAux_observed_le (level : Nat → Bool) (target : Bool) (t0 : Nat) :
    ∀ fuel i e, i ≤ 101 → waitAux level target t0 i fuel = .observed e → e ≤ 101 := by
  intro fuel
  induction fuel with
  | zero => intro i e _ h; rw [waitAux] at h; exact absurd h (by simp)
  | succ n ih =>
    intro i e h1 h
    rw [waitAux] at h
    by_cases hl : level (t0 + i) = target
    · simp [hl] at h; omega
    · by_cases ht : 100 < i
      · simp [hl, ht] at h
      · exact ih (i + 1) e (by omega) (by simpa [hl, ht] using h)

/-- If the polling loop times out, it reports exactly 101 µs elapsed:
the first poll at which `elapsed > 100`. -/
lemma waitAux_timedOut_eq (level : Nat → Bool) (target : Bool) (t0 : Nat) :
    ∀ fuel i e, i ≤ 101 → waitAux level target t0 i fuel = .timedOut e → e = 101 := by
  intro fuel
  induction fuel with
  | zero => intro i e _ h; rw [waitAux] at h; exact absurd h (by simp)
  | succ n ih =>
    intro i e h1 h
    rw [waitAux] at h
    by_cases hl : level (t0 + i) = target
    · simp [hl] at h
    · by_cases ht : 100 < i
      · simp [hl, ht] at h; omega
      · exact ih (i + 1) e (by omega) (by simpa [hl, ht] using h)

/-- The HIGH-pulse measurement loop reports a width of at most
101 µs: it is capped by the `elapsed > 100` break. -/
lemma measAux_le (level : Nat → Bool) (t0 : Nat) :
    ∀ fuel i, i ≤ 101 → measAux level t0 i fuel ≤ 101 := by
  intro fuel
  induction fuel with
  | zero => intro i h1; rw [measAux]; omega
  | succ n ih =>
    intro i h1
    rw [measAux]
    by_cases hl : level (t0 + i) = true
    · by_cases ht : 100 < i
      · simp [hl, ht]; omega
      · simpa [hl, ht] using ih (i + 1) (by omega)
    · simp [hl]; omega

/-- The time at which the 40-bit loop returns (by timeout or after the
40th bit) is at most `202` µs per remaining bit after its entry
time. -/
lemma readBitsAux_endTime_le (level : Nat → Bool) :
    ∀ k i t st, (match readBitsAux level k i t st with
      | .inl (_, tE) => tE
      | .inr (_, tE) => tE) ≤ t + k * 202 := by
  intro k
  induction k with
  | zero => intro i t st; simp [readBitsAux]
  | succ n ih =>
    intro i t st
    rw [readBitsAux]
    rcases hw : waitForLevel level true t with e | e | _
    · have he : e ≤ 101 := waitAux_observed_le level true t 102 0 e (by omega) hw
      have hm : measureHigh level (t + e) ≤ 101 := measAux_le level (t + e) 102 0 (by omega)
      have hrec := ih (i + 1) (t + e + measureHigh level (t + e)) (bitStep st (measureHigh level (t + e)))
      simp only [measureHigh] at hm hrec ⊢
      omega
    · have he : e = 101 := waitAux_timedOut_eq level true t 102 0 e (by omega) hw
      simp; omega
    · simp

/-- `wait_for_level` never runs out of modelling fuel. -/
lemma waitForLevel_ne_exhausted (level : Nat → Bool) (target : Bool) (t0 : Nat) :
    waitForLevel level target t0 ≠ .exhausted :=
  waitAux_ne_exhausted level target t0 102 0 (by omega) (by omega)

/-- `wait_for_level` observes the level within 101 µs when it does. -/
lemma waitForLevel_observed_le (level : Nat → Bool) (target : Bool) (t0 : Nat) (e : Nat)
    (h : waitForLevel level target t0 = .observed e) : e ≤ 101 :=
  waitAux_observed_le level target t0 102 0 e (by omega) h

/-- `wait_for_level` times out after exactly 101 µs when it does. -/
lemma waitForLevel_timedOut_eq (level : Nat → Bool) (target : Bool) (t0 : Nat) (e : Nat)
    (h : waitForLevel level target t0 = .timedOut e) : e = 101 :=
  waitAux_timedOut_eq level target t0 102 0 e (by omega) h

/-- The measured HIGH pulse width is at most 101 µs. -/
lemma measureHigh_le (level : Nat → Bool) (t0 : Nat) : measureHigh level t0 ≤ 101 :=
  measAux_le level t0 102 0 (by omega)

/-- Complete case analysis of one read attempt: it either times out
(generic `ESP_ERR_TIMEOUT`, handle untouched, some pre-`done` phase),
fails the checksum (handle untouched), or succeeds — there is no other
outcome. -/
lemma readOnceP_spec (level : Nat → Bool) (t0 : Nat) (s : Dht11) :
    ((readOnceP level t0 s).err = .errTimeout ∧ (readOnceP level t0 s).state = s ∧
      (readOnceP level t0 s).phase ≠ .done) ∨
    ((readOnceP level t0 s).err = .errInvalidCrc ∧ (readOnceP level t0 s).state = s ∧
      (readOnceP level t0 s).phase = .done) ∨
    ((readOnceP level t0 s).err = .ok ∧ (readOnceP level t0 s).phase = .done) := by
  rw [readOnceP]
  cases h1 : waitForLevel level false (t0 + 20000 + 30) with
  | timedOut e => simp [h1]
  | exhausted => simp [h1]
  | observed e1 =>
    simp only []
    cases h2 : waitForLevel level true (t0 + 20000 + 30 + e1) with
    | timedOut e => simp [h2]
    | exhausted => simp [h2]
    | observed e2 =>
      simp only []
      cases h3 : waitForLevel level false (t0 + 20000 + 30 + e1 + e2) with
      | timedOut e => simp [h3]
      | exhausted => simp [h3]
      | observed e3 =>
        simp only []
        cases h4 : readBitsAux level 40 0 (t0 + 20000 + 30 + e1 + e2 + e3) initBitState with
        | inl p => simp [h4]
        | inr p =>
          obtain ⟨st, tE⟩ := p
          by_cases hc : st.data[4]?.getD 0 =
              (st.data[0]?.getD 0 + st.data[1]?.getD 0 + st.data[2]?.getD 0 + st.data[3]?.getD 0) % 256
          · simp [h4, validateAndStore, hc]
          · simp [h4, validateAndStore, hc]

/-- A failed attempt (any error code) leaves the handle untouched. -/
lemma readOnceP_err_not_ok_state (level : Nat → Bool) (t0 : Nat) (s : Dht11)
    (h : (readOnceP level t0 s).err ≠ .ok) : (readOnceP level t0 s).state = s := by
  rcases readOnceP_spec level t0 s with ⟨_, h2, _⟩ | ⟨_, h2, _⟩ | ⟨h2, _⟩
  · exact h2
  · exact h2
  · exact absurd h2 h

/-- An attempt that stops before completing the 40 bits returns the
bare `ESP_ERR_TIMEOUT`, whatever the phase was. -/
lemma readOnceP_phase_ne_done_err (level : Nat → Bool) (t0 : Nat) (s : Dht11)
    (h : (readOnceP level t0 s).phase ≠ .done) : (readOnceP level t0 s).err = .errTimeout := by
  rcases readOnceP_spec level t0 s with ⟨h1, _, _⟩ | ⟨_, _, h3⟩ | ⟨_, h3⟩
  · exact h1
  · exact absurd h3 h
  · exact absurd h3 h

/-- A single attempt never returns the generic `ESP_FAIL`. -/
lemma readOnceP_err_ne_fail (level : Nat → Bool) (t0 : Nat) (s : Dht11) :
    (readOnceP level t0 s).err ≠ .fail := by
  rcases readOnceP_spec level t0 s with ⟨h1, _, _⟩ | ⟨h1, _, _⟩ | ⟨h1, _⟩ <;> simp [h1]

/-- One read attempt ends within a fixed time bound of its start:
20 ms start signal + 30 µs settle, three handshake waits of at most
101 µs, and 40 bits of at most 202 µs each. -/
lemma readOnceP_endTime_le (level : Nat → Bool) (t0 : Nat) (s : Dht11) :
    (readOnceP level t0 s).endTime ≤ t0 + 20030 + 3 * 101 + 40 * 202 := by
  rw [readOnceP]
  cases h1 : waitForLevel level false (t0 + 20000 + 30) with
  | timedOut e =>
    have := waitForLevel_timedOut_eq level false (t0 + 20000 + 30) e h1
    simp; omega
  | exhausted => simp
  | observed e1 =>
    have he1 := waitForLevel_observed_le level false (t0 + 20000 + 30) e1 h1
    simp only []
    cases h2 : waitForLevel level true (t0 + 20000 + 30 + e1) with
    | timedOut e =>
      have := waitForLevel_timedOut_eq level true (t0 + 20000 + 30 + e1) e h2
      simp; omega
    | exhausted => simp; omega
    | observed e2 =>
      have he2 := waitForLevel_observed_le level true (t0 + 20000 + 30 + e1) e2 h2
      simp only []
      cases h3 : waitForLevel level false (t0 + 20000 + 30 + e1 + e2) with
      | timedOut e =>
        have := waitForLevel_timedOut_eq level false (t0 + 20000 + 30 + e1 + e2) e h3
        simp; omega
      | exhausted => simp; omega
      | observed e3 =>
        have he3 := waitForLevel_observed_le level false (t0 + 20000 + 30 + e1 + e2) e3 h3
        have hb := readBitsAux_endTime_le level 40 0 (t0 + 20000 + 30 + e1 + e2 + e3) initBitState
        simp only []
        cases h4 : readBitsAux level 40 0 (t0 + 20000 + 30 + e1 + e2 + e3) initBitState with
        | inl p =>
          obtain ⟨i, tE⟩ := p
          rw [h4] at hb
          simp at hb ⊢
          omega
        | inr p =>
          obtain ⟨st, tE⟩ := p
          rw [h4] at hb
          simp at hb ⊢
          omega

/-- If the whole retry loop fails, the handle is unchanged, for any
number of remaining attempts. -/
lemma dht11_readAux_not_ok_state (level : Nat → Bool) :
    ∀ (n t : Nat) (s : Dht11) (last : EspErr),
      (dht11_readAux level n t s last).1 ≠ .ok → (dht11_readAux level n t s last).2.1 = s := by
  intro n
  induction n with
  | zero => intro t s last _; simp [dht11_readAux]
  | succ k ih =>
    intro t s last h
    rw [dht11_readAux] at h ⊢
    by_cases hr : (readOnceP level t s).err = .ok
    · simp [hr] at h
    · have hst := readOnceP_err_not_ok_state level t s hr
      simp only [if_neg hr] at h ⊢
      simp at h ⊢
      rw [hst] at h ⊢
      exact ih ((readOnceP level t s).endTime + 100000) s (readOnceP level t s).err h

/-! ### The claims about the retry wrapper, errors and conversion -/

/-- C3: if the first `k - 1` attempts fail and attempt `k` (1-based
`k = k0 + 1 ≤ 3`) succeeds, `dht11_read` performs exactly `k` calls of
`dht11_read_once`, returns `ESP_OK` immediately, and the handle equals
the state produced by the successful attempt. -/
theorem retry_stops_at_first_success :
    ∀ (level : Nat → Bool) (t0 : Nat) (s0 : Dht11) (k : Nat), k < 3 →
      (∀ j, j < k →
        (readOnceP level (attemptCtx level t0 s0 j).1 (attemptCtx level t0 s0 j).2).err ≠ .ok) →
      (readOnceP level (attemptCtx level t0 s0 k).1 (attemptCtx level t0 s0 k).2).err = .ok →
      dht11_read level t0 s0 =
        (.ok, (readOnceP level (attemptCtx level t0 s0 k).1 (attemptCtx level t0 s0 k).2).state,
          k + 1) := by
  intro level t0 s0 k hk hfail hsucc
  interval_cases k
  · simp only [attemptCtx] at hsucc ⊢
    simp [dht11_read, dht11_readAux, hsucc]
  · have h0 := hfail 0 (by omega)
    simp only [attemptCtx] at h0 hsucc ⊢
    simp [dht11_read, dht11_readAux, h0, hsucc]
  · have h0 := hfail 0 (by omega)
    have h1 := hfail 1 (by omega)
    simp only [attemptCtx] at h0 h1 hsucc ⊢
    simp [dht11_read, dht11_readAux, h0, h1, hsucc]

/-- C3 witness: on the successful trace the very first attempt
succeeds, exactly one attempt runs, and its decoded values are
stored. -/
theorem retry_stops_at_first_success_witness :
    dht11_read lineGood 0 ⟨4, 99, 88⟩ =
      (.ok, (readOnceP lineGood (attemptCtx lineGood 0 ⟨4, 99, 88⟩ 0).1
        (attemptCtx lineGood 0 ⟨4, 99, 88⟩ 0).2).state, 0 + 1) :=
  retry_stops_at_first_success lineGood 0 ⟨4, 99, 88⟩ 0 (by omega)
    (fun j hj => absurd hj (by omega)) (by decide)

/-- C4: a failed attempt (timeout in any phase or checksum mismatch)
leaves the handle's cached temperature and humidity unchanged, and so
does a full `dht11_read` whose every attempt failed. -/
theorem failed_attempt_preserves_handle :
    (∀ (level : Nat → Bool) (t : Nat) (s : Dht11),
      (readOnceP level t s).err ≠ .ok → (readOnceP level t s).state = s) ∧
    (∀ (level : Nat → Bool) (t0 : Nat) (s0 : Dht11),
      (dht11_read level t0 s0).1 ≠ .ok → (dht11_read level t0 s0).2.1 = s0) :=
  ⟨readOnceP_err_not_ok_state,
   fun level t0 s0 h => dht11_readAux_not_ok_state level 3 t0 s0 .fail h⟩

/-- C4 witness: on the stuck-HIGH line both one attempt and the whole
retried read fail and leave the cached values `7` and `8` in place. -/
theorem failed_attempt_preserves_handle_witness :
    (readOnceP lineHigh 0 ⟨4, 7, 8⟩).state = ⟨4, 7, 8⟩ ∧
    (dht11_read lineHigh 0 ⟨4, 7, 8⟩).2.1 = ⟨4, 7, 8⟩ :=
  ⟨failed_attempt_preserves_handle.1 lineHigh 0 ⟨4, 7, 8⟩ (by decide),
   failed_attempt_preserves_handle.2 lineHigh 0 ⟨4, 7, 8⟩ (by decide)⟩

/-- C5: when all three attempts fail, `dht11_read` performs exactly
three `dht11_read_once` calls and returns the error code of the last
attempt — a specific code (`ESP_ERR_TIMEOUT` or
`ESP_ERR_INVALID_CRC`), never the generic `ESP_FAIL` the loop's
`result` variable started with. -/
theorem retry_exhaustion_returns_last :
    ∀ (level : Nat → Bool) (t0 : Nat) (s0 : Dht11),
      (∀ j, j < 3 →
        (readOnceP level (attemptCtx level t0 s0 j).1 (attemptCtx level t0 s0 j).2).err ≠ .ok) →
      dht11_read level t0 s0 =
        ((readOnceP level (attemptCtx level t0 s0 2).1 (attemptCtx level t0 s0 2).2).err,
         (readOnceP level (attemptCtx level t0 s0 2).1 (attemptCtx level t0 s0 2).2).state, 3) ∧
      (readOnceP level (attemptCtx level t0 s0 2).1 (attemptCtx level t0 s0 2).2).err ≠ .fail := by
  intro level t0 s0 hfail
  have h0 := hfail 0 (by omega)
  have h1 := hfail 1 (by omega)
  have h2 := hfail 2 (by omega)
  simp only [attemptCtx] at h0 h1 h2 ⊢
  refine ⟨?_, readOnceP_err_ne_fail _ _ _⟩
  simp [dht11_read, dht11_readAux, h0, h1, h2]

/-- C5 witness: on the stuck-HIGH line all three attempts time out and
`dht11_read` returns the last attempt's `ESP_ERR_TIMEOUT` after
exactly three attempts. -/
theorem retry_exhaustion_returns_last_witness :
    dht11_read lineHigh 0 ⟨4, 1, 2⟩ = (.errTimeout, ⟨4, 1, 2⟩, 3) := by
  have hf : ∀ j, j < 3 →
      (readOnceP lineHigh (attemptCtx lineHigh 0 ⟨4, 1, 2⟩ j).1
        (attemptCtx lineHigh 0 ⟨4, 1, 2⟩ j).2).err ≠ .ok := by
    intro j hj
    interval_cases j <;> decide
  exact (retry_exhaustion_returns_last lineHigh 0 ⟨4, 1, 2⟩ hf).1.trans (by decide)

/-- C6 (amended): every attempt that stops before reading all 40 bits
— in any of the phases ack-low, ack-high, ack-low2 or a bit index —
returns the one generic `ESP_ERR_TIMEOUT`; the returned value does not
carry the phase. -/
theorem timeout_return_value_uniform :
    ∀ (level : Nat → Bool) (t0 : Nat) (s : Dht11),
      (readOnceP level t0 s).phase ≠ .done →
      (readOnceP level t0 s).err = .errTimeout :=
  readOnceP_phase_ne_done_err

/-- C6 witness: the trace that times out in the ack-high handshake
phase returns `ESP_ERR_TIMEOUT`. -/
theorem timeout_return_value_uniform_witness :
    (readOnceP lineAck2 0 ⟨4, 0, 0⟩).err = .errTimeout :=
  timeout_return_value_uniform lineAck2 0 ⟨4, 0, 0⟩ (by decide)

/-- C6 counterexample: one trace times out in the ack-high handshake
stage and another while waiting for bit 0, yet `dht11_read_once`
returns the identical error code and handle for both — the outcome
carries no phase and the caller cannot distinguish the two. -/
theorem timeout_phase_not_in_return_value :
    (readOnceP lineAck2 0 ⟨4, 0, 0⟩).phase = .ackHigh ∧
    (readOnceP lineBit0 0 ⟨4, 0, 0⟩).phase = .bit 0 ∧
    dht11_read_once lineAck2 0 ⟨4, 0, 0⟩ = dht11_read_once lineBit0 0 ⟨4, 0, 0⟩ := by
  decide

/-- C7: every level-polling loop of the read path is bounded by its
100 µs budget — the fueled model never exhausts, an observation comes
within 101 µs, a timeout is reported at exactly 101 µs, the pulse
measurement is capped at 101 µs — and consequently a whole read
attempt ends within a fixed bound of its start for every possible
behaviour of the line. -/
theorem polling_loops_bounded :
    ∀ (level : Nat → Bool) (target : Bool) (t0 : Nat) (s : Dht11),
      waitForLevel level target t0 ≠ .exhausted ∧
      (∀ e, waitForLevel level target t0 = .observed e → e ≤ 101) ∧
      (∀ e, waitForLevel level target t0 = .timedOut e → e = 101) ∧
      measureHigh level t0 ≤ 101 ∧
      (readOnceP level t0 s).endTime ≤ t0 + 20030 + 3 * 101 + 40 * 202 :=
  fun level target t0 s =>
    ⟨waitForLevel_ne_exhausted level target t0,
     fun e h => waitForLevel_observed_le level target t0 e h,
     fun e h => waitForLevel_timedOut_eq level target t0 e h,
     measureHigh_le level t0,
     readOnceP_endTime_le level t0 s⟩

/-- C7 witness: the bounds instantiated on the stuck-HIGH line. -/
theorem polling_loops_bounded_witness :
    waitForLevel lineHigh false 0 ≠ .exhausted ∧ measureHigh lineHigh 0 ≤ 101 ∧
    (readOnceP lineHigh 0 ⟨4, 0, 0⟩).endTime ≤ 0 + 20030 + 3 * 101 + 40 * 202 := by
  obtain ⟨a, b, c, d, e⟩ := polling_loops_bounded lineHigh false 0 ⟨4, 0, 0⟩
  exact ⟨a, d, e⟩

/-- C8: `dht11_celsius_to_fahrenheit` is a pure function of its
integer argument computing `celsius * 9 / 5 + 32` in binary32 floating
point; in particular it maps 25 to exactly 77.0 and 0 to exactly
32.0. -/
theorem celsius_to_fahrenheit_instances :
    (dht11_celsius_to_fahrenheit 25).toRat = 77 ∧
    (dht11_celsius_to_fahrenheit 0).toRat = 32 := by
  have h25 : dht11_celsius_to_fahrenheit 25 = ⟨10092544, -17⟩ := by decide
  have h0 : dht11_celsius_to_fahrenheit 0 = ⟨8388608, -18⟩ := by decide
  rw [h25, h0]
  constructor <;> · simp [F32.toRat]; norm_num

/-- C9: `dht11_get_temperature` with `fahrenheit = true` returns the
truncation toward zero of the binary32 conversion (not the float
value, which at 21 °C is strictly between 69 and 70, and at −21 °C
strictly between −6 and −5); with `fahrenheit = false` it returns the
cached Celsius value unchanged. -/
theorem get_temperature_fahrenheit_truncates :
    (∀ s : Dht11, dht11_get_temperature s false = s.temperature) ∧
    (∀ s : Dht11, dht11_get_temperature s true = (dht11_celsius_to_fahrenheit s.temperature).toCInt) ∧
    dht11_get_temperature ⟨4, 21, 50⟩ true = 69 ∧
    (dht11_celsius_to_fahrenheit 21).toRat ≠ 69 ∧
    dht11_get_temperature ⟨4, -21, 50⟩ true = -5 ∧
    (dht11_celsius_to_fahrenheit (-21)).toRat ≠ -5 ∧
    (dht11_celsius_to_fahrenheit (-21)).toRat ≠ -6 := by
  have h21 : dht11_celsius_to_fahrenheit 21 = ⟨9148826, -17⟩ := by decide
  have hm21 : dht11_celsius_to_fahrenheit (-21) = ⟨-12163480, -21⟩ := by decide
  refine ⟨fun s => rfl, fun s => rfl, by decide, ?_, by decide, ?_, ?_⟩
  · rw [h21]; simp [F32.toRat]; norm_num
  · rw [hm21]; simp [F32.toRat]; norm_num
  · rw [hm21]; simp [F32.toRat]; norm_num
